import Mathlib

set_option maxRecDepth 10000

/-!
Shallow embedding of the transfer-registry subsystem of `src/server.js`
(a Node/Express file-transfer application), together with proofs about it.

Modelling conventions:
* JavaScript `Date` values are millisecond timestamps, embedded as `Int`.
* The in-memory `fileStore` (`new Map()`, line 34) is embedded as an
  association list `List (String × TransferRecord)`; `mapGet`, `mapSet`
  and `mapDelete` mirror `Map.get`, `Map.set` (in-place update of an
  existing key, append otherwise) and `Map.delete` (removal of the entry
  with the key).
* `generateDownloadId` (line 192) draws from `Math.random()`; the
  entropy source is embedded as a generator function `gen : Nat → String`
  together with a seed that advances by one per call, so that "an
  identifier was generated" is visible as a seed increment.
* The filesystem contents of `uploads/` are embedded as the list of
  stored paths `disk : List String`; the download route (lines 88-161)
  performs no filesystem call (only `fileStore.delete` and `res.send`),
  so it returns `disk` unchanged.
* HTTP responses are embedded as result constructors: 400 on empty
  upload is `UploadResult.invalidInput`, 404 pages are `notFound`,
  the 410 page is `expired`, `res.download(path, name)` is
  `direct path name`, and the multi-file HTML page (lines 127-155) is
  `manifest`, keeping the data that the page interpolates per file:
  the link target, the display name, and the formatted size.
-/

set_option autoImplicit false

namespace FileTransfer

/-- One stored file of a transfer, as recorded by the upload route
(`src/server.js` lines 57-62): display name, generated on-disk name,
storage path and byte size. -/
structure FileRecord where
  originalName : String
  storedName : String
  path : String
  size : Nat
deriving DecidableEq

/-- The value stored in `fileStore` per download id
(`src/server.js` lines 56-67). -/
structure TransferRecord where
  files : List FileRecord
  email : Option String
  message : Option String
  createdAt : Int
  expiresAt : Int
deriving DecidableEq

/-- One element of `req.files` as multer delivers it: the fields the
upload route reads (`originalname`, `filename`, `path`, `size`). -/
structure UploadedFile where
  originalname : String
  filename : String
  path : String
  size : Nat
deriving DecidableEq

/-- The registry `fileStore` (line 34): a `Map` from download id to
`TransferRecord`, embedded as an insertion-ordered association list. -/
abbrev Store := List (String × TransferRecord)

/-- `Map.get`: the value at the key, if present. -/
def mapGet : Store → String → Option TransferRecord
  | [], _ => none
  | e :: m, k => if e.1 = k then some e.2 else mapGet m k

/-- `Map.set`: replace the value at an existing key in place, otherwise
append the new entry at the end (JS `Map` preserves insertion order). -/
def mapSet : Store → String → TransferRecord → Store
  | [], k, v => [(k, v)]
  | e :: m, k, v => if e.1 = k then (k, v) :: m else e :: mapSet m k v

/-- `Map.delete`: remove the entry with the key.  A JS `Map` holds at
most one entry per key, so removing the first match is removal of the
entry. -/
def mapDelete : Store → String → Store
  | [], _ => []
  | e :: m, k => if e.1 = k then m else e :: mapDelete m k

/-- Key list of a store. -/
def keys (m : Store) : List String := m.map Prod.fst

/-- The `Map` representation invariant: one entry per key. -/
def UniqueKeys (m : Store) : Prop := (keys m).Nodup

/-- `7 * 24 * 60 * 60 * 1000` milliseconds (line 66). -/
def retentionMs : Int := 7 * 24 * 60 * 60 * 1000

/-- Outcome of `POST /api/upload`: 400 with "Please select files to
upload", or the success JSON carrying `downloadId` and `fileCount`. -/
inductive UploadResult where
  | invalidInput
  | ok (downloadId : String) (fileCount : Nat)
deriving DecidableEq

/-- The per-file mapping of the upload route (lines 57-62). -/
def toFileRecord (f : UploadedFile) : FileRecord :=
  { originalName := f.originalname
    storedName := f.filename
    path := f.path
    size := f.size }

/-- The record stored under the fresh id (lines 56-67).  `createdAt` is
`new Date()` and `expiresAt` is `Date.now() + 7 days`; both calls read
the same clock instant `now`. -/
def mkTransferRecord (fs : List UploadedFile) (email message : Option String)
    (now : Int) : TransferRecord :=
  { files := fs.map toFileRecord
    email := email
    message := message
    createdAt := now
    expiresAt := now + retentionMs }

/-- `POST /api/upload` (lines 37-85).  `files` is `req.files` (`none`
models an absent array).  The guard `!files || files.length === 0`
returns 400 before `generateDownloadId()` is called, so on that path the
seed does not advance; otherwise a fresh id is drawn and
`fileStore.set(downloadId, ...)` stores the record unconditionally. -/
def handleUpload (store : Store) (gen : Nat → String) (seed : Nat)
    (files : Option (List UploadedFile)) (email message : Option String)
    (now : Int) : UploadResult × Store × Nat :=
  match files with
  | none => (.invalidInput, store, seed)
  | some fs =>
    if fs.length = 0 then (.invalidInput, store, seed)
    else
      (.ok (gen seed) fs.length,
       mapSet store (gen seed) (mkTransferRecord fs email message now),
       seed + 1)

/-- Outcome of the registry lookup inside `GET /download/:id`
(lines 91-119): unknown id (404 page), expired id (410 page, entry
deleted), or the live record. -/
inductive ResolveResult where
  | notFound
  | expired
  | ok (record : TransferRecord)
deriving DecidableEq

/-- The lookup-and-expiry-check sequence of `GET /download/:id`
(lines 91-119): `fileStore.get`, 404 if absent, then
`new Date() > fileData.expiresAt` deletes the entry and answers 410;
otherwise the record is returned and the store untouched. -/
def resolve (store : Store) (id : String) (now : Int) :
    ResolveResult × Store :=
  match mapGet store id with
  | none => (.notFound, store)
  | some r => if now > r.expiresAt then (.expired, mapDelete store id)
              else (.ok r, store)

/-- The unit table of `formatFileSize` (line 199). -/
def sizes : List String := ["Bytes", "KB", "MB", "GB"]

/-- `parseFloat((bytes / Math.pow(1024, i)).toFixed(2))` rendered back
to text (line 201): the quotient rounded to hundredths (half up), with
trailing fractional zeros dropped by `parseFloat`. -/
def renderMagnitude (bytes i : Nat) : String :=
  let p := 1024 ^ i
  let h := (200 * bytes + p) / (2 * p)
  if h % 100 = 0 then toString (h / 100)
  else if h % 10 = 0 then toString (h / 100) ++ "." ++ toString (h / 10 % 10)
  else toString (h / 100) ++ "." ++ toString (h / 10 % 10) ++ toString (h % 10)

/-- `formatFileSize` (lines 196-202).  The unit index
`Math.floor(Math.log(bytes) / Math.log(1024))` is embedded as the exact
integer logarithm `Nat.log 1024 bytes` (IEEE rounding of the quotient
can shift the floor only at exact powers of 1024, which no statement
below relies on).  JavaScript evaluates `sizes[i]` for an index past the
end of the array to `undefined`, which string concatenation renders as
`"undefined"`; `List.getD _ _ "undefined"` captures exactly that. -/
def formatFileSize (bytes : Nat) : String :=
  if bytes = 0 then "0 Bytes"
  else renderMagnitude bytes (Nat.log 1024 bytes) ++ " " ++
       sizes.getD (Nat.log 1024 bytes) "undefined"

/-- The data interpolated into one `file-item` of the multi-file page
(lines 144-149): link target, display name, formatted size. -/
structure ManifestEntry where
  url : String
  displayName : String
  sizeText : String
deriving DecidableEq

/-- One manifest row (lines 145-148). -/
def manifestEntry (id : String) (f : FileRecord) : ManifestEntry :=
  { url := "/download-file/" ++ id ++ "/" ++ f.storedName
    displayName := f.originalName
    sizeText := formatFileSize f.size }

/-- Outcome of `GET /download/:id`. -/
inductive DownloadResult where
  | notFound
  | expired
  | direct (path displayName : String)
  | manifest (entries : List ManifestEntry)
deriving DecidableEq

/-- `GET /download/:id` (lines 88-161).  After the lookup/expiry
sequence (`resolve`), `files.length === 1` serves `files[0]` directly
via `res.download(file.path, file.originalName)`; otherwise the HTML
page lists every file in order.  The route contains no filesystem
operation, so the disk contents pass through unchanged. -/
def handleDownload (store : Store) (disk : List String) (id : String)
    (now : Int) : DownloadResult × Store × List String :=
  match resolve store id now with
  | (.notFound, s) => (.notFound, s, disk)
  | (.expired, s) => (.expired, s, disk)
  | (.ok r, s) =>
    match r.files with
    | [f] => (.direct f.path f.originalName, s, disk)
    | _ => (.manifest (r.files.map (manifestEntry id)), s, disk)

/-- Outcome of `GET /download-file/:id/:filename`. -/
inductive FileDownloadResult where
  | notFound
  | direct (path displayName : String)
deriving DecidableEq

/-- `GET /download-file/:id/:filename` (lines 164-175): `fileStore.get`,
404 if absent, `files.find(f => f.storedName === filename)`, 404 if no
match, else `res.download(file.path, file.originalName)`.  The route
reads no clock and never writes the store. -/
def handleFileDownload (store : Store) (id filename : String) :
    FileDownloadResult :=
  match mapGet store id with
  | none => .notFound
  | some r =>
    match r.files.find? (fun f => f.storedName == filename) with
    | none => .notFound
    | some f => .direct f.path f.originalName

/-- Modelled from the spec: `sweepExpired(now)` of §4.2.  The
RetentionReaper and its sweep are absent from `src/server.js` (§9 notes
the original relies on expiry-check-on-read with no explicit sweep), so
the operation is taken from the words of the spec: iterate all entries,
remove any whose `expiresAt < now`, return the count removed. -/
def sweepExpired (store : Store) (now : Int) : Nat × Store :=
  ((store.filter (fun e => decide (e.2.expiresAt < now))).length,
   store.filter (fun e => ! decide (e.2.expiresAt < now)))

/-! ### Helper lemmas about the store operations -/

theorem mapGet_set_self (m : Store) (k : String) (v : TransferRecord) :
    mapGet (mapSet m k v) k = some v := by
  induction m with
  | nil => simp [mapSet, mapGet]
  | cons e m ih =>
    by_cases h : e.1 = k
    · simp [mapSet, h, mapGet]
    · simp [mapSet, h, mapGet, ih]

theorem mem_keys_of_mem_keys_set (m : Store) (k a : String) (v : TransferRecord)
    (h : a ∈ keys (mapSet m k v)) : a = k ∨ a ∈ keys m := by
  induction m with
  | nil => simpa [mapSet, keys] using h
  | cons e m ih =>
    by_cases he : e.1 = k
    · simp only [mapSet, he, if_pos, keys, List.map_cons, List.mem_cons] at h ⊢
      tauto
    · simp only [mapSet, he, if_neg, not_false_iff, keys, List.map_cons,
        List.mem_cons] at h ⊢
      rcases h with h | h
      · tauto
      · rcases ih h with h' | h' <;> tauto

theorem mapGet_eq_none_of_not_mem_keys (m : Store) (a : String)
    (h : a ∉ keys m) : mapGet m a = none := by
  induction m with
  | nil => rfl
  | cons e m ih =>
    simp only [keys, List.map_cons, List.mem_cons, not_or] at h
    have hne : e.1 ≠ a := fun hh => h.1 hh.symm
    simp only [mapGet, if_neg hne]
    exact ih (by simpa [keys] using h.2)

theorem uniqueKeys_set (m : Store) (k : String) (v : TransferRecord)
    (h : UniqueKeys m) : UniqueKeys (mapSet m k v) := by
  induction m with
  | nil => simp [mapSet, UniqueKeys, keys]
  | cons e m ih =>
    simp only [UniqueKeys, keys, List.map_cons, List.nodup_cons] at h
    by_cases he : e.1 = k
    · subst he
      simpa [mapSet, UniqueKeys, keys, List.nodup_cons] using h
    · have h1 : UniqueKeys (mapSet m k v) := ih h.2
      have h2 : e.1 ∉ keys (mapSet m k v) := by
        intro hmem
        rcases mem_keys_of_mem_keys_set m k e.1 v hmem with h' | h'
        · exact he h'
        · exact h.1 (by simpa [keys] using h')
      simpa [mapSet, he, UniqueKeys, keys, List.nodup_cons] using ⟨by simpa [keys] using h2, h1⟩

theorem mapGet_delete_self (m : Store) (k : String) (h : UniqueKeys m) :
    mapGet (mapDelete m k) k = none := by
  induction m with
  | nil => rfl
  | cons e m ih =>
    simp only [UniqueKeys, keys, List.map_cons, List.nodup_cons] at h
    by_cases he : e.1 = k
    · subst he
      simp only [mapDelete, if_pos rfl]
      exact mapGet_eq_none_of_not_mem_keys m e.1 (by simpa [keys] using h.1)
    · simp [mapDelete, he, mapGet, ih h.2]

theorem resolve_ok_of_live (store : Store) (id : String) (r : TransferRecord)
    (t : Int) (hget : mapGet store id = some r) (hlive : ¬ t > r.expiresAt) :
    resolve store id t = (.ok r, store) := by
  simp [resolve, hget, hlive]

theorem length_filter_add_length_filter_not (l : Store)
    (p : String × TransferRecord → Bool) :
    (l.filter p).length + (l.filter (fun e => ! p e)).length = l.length := by
  induction l with
  | nil => rfl
  | cons e l ih =>
    by_cases h : p e = true <;> simp [List.filter_cons, h] <;> omega

/-! ### Concrete fixtures used by counterexamples and witnesses -/

/-- A sample multipart part, as multer would deliver it. -/
def samplePart : UploadedFile :=
  { originalname := "notes.txt", filename := "111-222.txt"
    path := "uploads/111-222.txt", size := 1536 }

/-- A record created at epoch 0, hence expiring at millisecond
604800000. -/
def oldRecord : TransferRecord :=
  { files := [{ originalName := "old.txt", storedName := "333-444.txt"
                path := "uploads/333-444.txt", size := 3 }]
    email := none, message := none, createdAt := 0, expiresAt := 604800000 }

/-- A single-file record created at epoch 0; at any instant after
millisecond 604800000 it is past its expiry. -/
def expiredRecord : TransferRecord :=
  { files := [{ originalName := "orig.txt", storedName := "555-666.txt"
                path := "uploads/555-666.txt", size := 5 }]
    email := none, message := none, createdAt := 0, expiresAt := 604800000 }

/-- A two-file record created at epoch 0. -/
def twoFileRecord : TransferRecord :=
  { files := [{ originalName := "a.txt", storedName := "1-1.txt"
                path := "uploads/1-1.txt", size := 1024 },
              { originalName := "b.txt", storedName := "2-2.txt"
                path := "uploads/2-2.txt", size := 2048 }]
    email := none, message := none, createdAt := 0, expiresAt := 604800000 }

/-- Placeholder file record used to express "the head of the list"
without a binder. -/
def dummyFile : FileRecord :=
  { originalName := "", storedName := "", path := "", size := 0 }

/-! ### Claims -/

/-- C10: uploading with an absent or empty `files` array answers 400
InvalidInput, inserts no record (the registry is returned unchanged) and
generates no identifier (the generator seed does not advance): the guard
runs before `generateDownloadId()` is reached. -/
theorem upload_empty_rejected_atomically (store : Store) (gen : Nat → String)
    (seed : Nat) (email message : Option String) (now : Int) :
    handleUpload store gen seed none email message now =
      (.invalidInput, store, seed) ∧
    handleUpload store gen seed (some []) email message now =
      (.invalidInput, store, seed) :=
  ⟨rfl, rfl⟩

/-- C8: resolving an identifier that is present and not past its expiry
returns the stored record itself and the registry unchanged: a read-only
lookup with no sliding-window extension. -/
theorem resolve_live_is_readonly (store : Store) (id : String)
    (r : TransferRecord) (t : Int) (hget : mapGet store id = some r)
    (hlive : ¬ t > r.expiresAt) :
    resolve store id t = (.ok r, store) :=
  resolve_ok_of_live store id r t hget hlive

/-- Witness for the C8 theorem at a concrete registry and instant. -/
theorem resolve_live_is_readonly_witness :
    mapGet [("abc", oldRecord)] "abc" = some oldRecord ∧
    ¬ (5 : Int) > oldRecord.expiresAt ∧
    resolve [("abc", oldRecord)] "abc" 5 = (.ok oldRecord, [("abc", oldRecord)]) :=
  ⟨by decide, by decide,
   resolve_live_is_readonly [("abc", oldRecord)] "abc" oldRecord 5
     (by decide) (by decide)⟩

/-- C1 counterexample: with `"x"` already a key of the registry, an
upload whose freshly generated identifier is again `"x"` does not retry:
`fileStore.set` overwrites, and the record previously stored under `"x"`
is replaced by the new one. -/
theorem create_overwrites_on_collision :
    (handleUpload [("x", oldRecord)] (fun _ => "x") 0
        (some [samplePart]) none none 0).1 = .ok "x" 1 ∧
    mapGet (handleUpload [("x", oldRecord)] (fun _ => "x") 0
        (some [samplePart]) none none 0).2.1 "x" =
      some (mkTransferRecord [samplePart] none none 0) ∧
    mkTransferRecord [samplePart] none none 0 ≠ oldRecord := by
  decide

/-- C1 (amended): `create` performs no collision check: for every
registry state and non-empty batch it stores the record under the
generated identifier unconditionally via `Map.set`, so an identifier
already present in the mapping has its record overwritten rather than
triggering a retry. -/
theorem create_sets_unconditionally (store : Store) (gen : Nat → String)
    (seed : Nat) (fs : List UploadedFile) (email message : Option String)
    (now : Int) (hfs : fs ≠ []) :
    handleUpload store gen seed (some fs) email message now =
      (.ok (gen seed) fs.length,
       mapSet store (gen seed) (mkTransferRecord fs email message now),
       seed + 1) ∧
    mapGet (mapSet store (gen seed) (mkTransferRecord fs email message now))
        (gen seed) = some (mkTransferRecord fs email message now) := by
  refine ⟨?_, mapGet_set_self _ _ _⟩
  simp [handleUpload, List.length_eq_zero, hfs]

/-- Witness for the amended C1 theorem: a concrete upload into a
registry that already holds the colliding key `"x"`. -/
theorem create_sets_unconditionally_witness :
    ([samplePart] : List UploadedFile) ≠ [] ∧
    (handleUpload [("x", oldRecord)] (fun _ => "x") 0
        (some [samplePart]) none none 0 =
      (.ok "x" 1,
       mapSet [("x", oldRecord)] "x" (mkTransferRecord [samplePart] none none 0),
       1) ∧
     mapGet (mapSet [("x", oldRecord)] "x"
         (mkTransferRecord [samplePart] none none 0)) "x" =
       some (mkTransferRecord [samplePart] none none 0)) :=
  ⟨by decide,
   create_sets_unconditionally [("x", oldRecord)] (fun _ => "x") 0
     [samplePart] none none 0 (by decide)⟩

/-- C6: for every non-empty batch, `create` followed by `resolve` with
the returned identifier, at any instant not past the expiry, answers the
stored record, whose files match the batch element-for-element in order:
original names, stored names, and byte sizes. -/
theorem create_then_resolve_roundtrip (store : Store) (gen : Nat → String)
    (seed : Nat) (fs : List UploadedFile) (email message : Option String)
    (now t : Int) (hfs : fs ≠ []) (ht : ¬ t > now + retentionMs) :
    resolve (handleUpload store gen seed (some fs) email message now).2.1
        (gen seed) t =
      (.ok (mkTransferRecord fs email message now),
       (handleUpload store gen seed (some fs) email message now).2.1) ∧
    (mkTransferRecord fs email message now).files.map FileRecord.originalName =
      fs.map UploadedFile.originalname ∧
    (mkTransferRecord fs email message now).files.map FileRecord.storedName =
      fs.map UploadedFile.filename ∧
    (mkTransferRecord fs email message now).files.map FileRecord.size =
      fs.map UploadedFile.size := by
  have hstore : (handleUpload store gen seed (some fs) email message now).2.1 =
      mapSet store (gen seed) (mkTransferRecord fs email message now) := by
    simp [handleUpload, List.length_eq_zero, hfs]
  rw [hstore]
  refine ⟨resolve_ok_of_live _ _ _ _ (mapGet_set_self _ _ _) ?_, ?_, ?_, ?_⟩
  · simpa [mkTransferRecord] using ht
  · simp [mkTransferRecord, toFileRecord, List.map_map, Function.comp]
  · simp [mkTransferRecord, toFileRecord, List.map_map, Function.comp]
  · simp [mkTransferRecord, toFileRecord, List.map_map, Function.comp]

/-- Witness for the C6 theorem: one concrete part uploaded at epoch 0
and resolved at the last unexpired millisecond. -/
theorem create_then_resolve_roundtrip_witness :
    ([samplePart] : List UploadedFile) ≠ [] ∧
    ¬ (604800000 : Int) > 0 + retentionMs ∧
    (resolve (handleUpload [] (fun _ => "abc") 0
          (some [samplePart]) none none 0).2.1 "abc" 604800000 =
       (.ok (mkTransferRecord [samplePart] none none 0),
        (handleUpload [] (fun _ => "abc") 0
          (some [samplePart]) none none 0).2.1) ∧
     (mkTransferRecord [samplePart] none none 0).files.map FileRecord.originalName =
       [samplePart].map UploadedFile.originalname ∧
     (mkTransferRecord [samplePart] none none 0).files.map FileRecord.storedName =
       [samplePart].map UploadedFile.filename ∧
     (mkTransferRecord [samplePart] none none 0).files.map FileRecord.size =
       [samplePart].map UploadedFile.size) :=
  ⟨by decide, by decide,
   create_then_resolve_roundtrip [] (fun _ => "abc") 0 [samplePart]
     none none 0 604800000 (by decide) (by decide)⟩

/-- C7: a record created at `now` with the default 7-day retention:
`resolve` strictly after `now + 7 days` answers Expired and removes the
entry, and afterwards `resolve` at any instant and the per-file lookup
with any stored name both answer NotFound — the record is gone. -/
theorem resolve_after_expiry_then_gone (store : Store) (gen : Nat → String)
    (seed : Nat) (fs : List UploadedFile) (email message : Option String)
    (now t u : Int) (name : String) (huniq : UniqueKeys store)
    (hfs : fs ≠ []) (ht : t > now + retentionMs) :
    resolve (handleUpload store gen seed (some fs) email message now).2.1
        (gen seed) t =
      (.expired,
       mapDelete (handleUpload store gen seed (some fs) email message now).2.1
         (gen seed)) ∧
    resolve (mapDelete
        (handleUpload store gen seed (some fs) email message now).2.1
        (gen seed)) (gen seed) u =
      (.notFound,
       mapDelete (handleUpload store gen seed (some fs) email message now).2.1
         (gen seed)) ∧
    handleFileDownload (mapDelete
        (handleUpload store gen seed (some fs) email message now).2.1
        (gen seed)) (gen seed) name = .notFound := by
  have hstore : (handleUpload store gen seed (some fs) email message now).2.1 =
      mapSet store (gen seed) (mkTransferRecord fs email message now) := by
    simp [handleUpload, List.length_eq_zero, hfs]
  rw [hstore]
  have hget := mapGet_set_self store (gen seed) (mkTransferRecord fs email message now)
  have hnone : mapGet (mapDelete
      (mapSet store (gen seed) (mkTransferRecord fs email message now))
      (gen seed)) (gen seed) = none :=
    mapGet_delete_self _ _ (uniqueKeys_set store (gen seed) _ huniq)
  refine ⟨?_, ?_, ?_⟩
  · have hx : t > (mkTransferRecord fs email message now).expiresAt := by
      simpa [mkTransferRecord] using ht
    simp only [resolve, hget]
    simp [hx]
  · simp [resolve, hnone]
  · simp [handleFileDownload, hnone]

/-- Witness for the C7 theorem: upload at epoch 0 into the empty
registry, resolve one millisecond past the seven-day expiry. -/
theorem resolve_after_expiry_then_gone_witness :
    UniqueKeys [] ∧ ([samplePart] : List UploadedFile) ≠ [] ∧
    (604800001 : Int) > 0 + retentionMs ∧
    (resolve (handleUpload [] (fun _ => "abc") 0
          (some [samplePart]) none none 0).2.1 "abc" 604800001 =
       (.expired,
        mapDelete (handleUpload [] (fun _ => "abc") 0
          (some [samplePart]) none none 0).2.1 "abc") ∧
     resolve (mapDelete (handleUpload [] (fun _ => "abc") 0
          (some [samplePart]) none none 0).2.1 "abc") "abc" 604800002 =
       (.notFound,
        mapDelete (handleUpload [] (fun _ => "abc") 0
          (some [samplePart]) none none 0).2.1 "abc") ∧
     handleFileDownload (mapDelete (handleUpload [] (fun _ => "abc") 0
          (some [samplePart]) none none 0).2.1 "abc") "abc" "111-222.txt" =
       .notFound) :=
  ⟨by simp [UniqueKeys, keys], by decide, by decide,
   resolve_after_expiry_then_gone [] (fun _ => "abc") 0 [samplePart]
     none none 0 604800001 604800002 "111-222.txt"
     (by simp [UniqueKeys, keys]) (by decide) (by decide)⟩

/-- C9: on a successful, unexpired lookup, a record with exactly one
file is served as a direct download (its path and display name), not a
manifest; a record with more than one file yields a manifest listing
exactly the files of the record in upload order, the URL of each entry
embedding the identifier and the stored name of that file. -/
theorem download_direct_or_manifest (store : Store) (disk : List String)
    (id : String) (r : TransferRecord) (t : Int)
    (hget : mapGet store id = some r) (hlive : ¬ t > r.expiresAt) :
    (r.files.length = 1 →
      handleDownload store disk id t =
        (.direct (r.files.headD dummyFile).path
           (r.files.headD dummyFile).originalName, store, disk)) ∧
    (2 ≤ r.files.length →
      handleDownload store disk id t =
        (.manifest (r.files.map (manifestEntry id)), store, disk)) := by
  have hres := resolve_ok_of_live store id r t hget hlive
  constructor
  · intro h1
    obtain ⟨f, hf⟩ := List.length_eq_one.mp h1
    simp [handleDownload, hres, hf]
  · intro h2
    cases hr : r.files with
    | nil => rw [hr] at h2; simp at h2
    | cons a l =>
      cases l with
      | nil => rw [hr] at h2; simp at h2
      | cons b l2 => simp [handleDownload, hres, hr]

/-- Witness for the C9 theorem at a two-file record: the result is the
two-entry manifest in upload order. -/
theorem download_direct_or_manifest_witness :
    mapGet [("abc", twoFileRecord)] "abc" = some twoFileRecord ∧
    ¬ (5 : Int) > twoFileRecord.expiresAt ∧
    ((twoFileRecord.files.length = 1 →
       handleDownload [("abc", twoFileRecord)] ["uploads/1-1.txt"] "abc" 5 =
         (.direct (twoFileRecord.files.headD dummyFile).path
            (twoFileRecord.files.headD dummyFile).originalName,
          [("abc", twoFileRecord)], ["uploads/1-1.txt"])) ∧
     (2 ≤ twoFileRecord.files.length →
       handleDownload [("abc", twoFileRecord)] ["uploads/1-1.txt"] "abc" 5 =
         (.manifest (twoFileRecord.files.map (manifestEntry "abc")),
          [("abc", twoFileRecord)], ["uploads/1-1.txt"]))) :=
  ⟨by decide, by decide,
   download_direct_or_manifest [("abc", twoFileRecord)] ["uploads/1-1.txt"]
     "abc" twoFileRecord 5 (by decide) (by decide)⟩

/-- C2: divergence exhibited on the code — expiry-on-resolve removes
only the `Map` entry; the download route performs no filesystem
operation, so after the removal the stored path of the record is still
present on disk (an orphaned file), and reading it would not observe
absence. -/
theorem expiry_removes_entry_but_not_backing_file :
    handleDownload [("abc", expiredRecord)] ["uploads/555-666.txt"]
        "abc" 604800001 =
      (.expired, [], ["uploads/555-666.txt"]) ∧
    "uploads/555-666.txt" ∈
      (handleDownload [("abc", expiredRecord)] ["uploads/555-666.txt"]
        "abc" 604800001).2.2 := by
  decide

/-- C3: divergence exhibited on the code — the per-file route does a
bare `Map.get` with no expiry comparison at all (it reads no clock): on
an identifier past its `expiresAt` it still serves the stored file and
leaves the record in the registry, instead of signalling Expired and
deleting the record. -/
theorem fileDownload_serves_expired_record :
    handleFileDownload [("abc", expiredRecord)] "abc" "555-666.txt" =
      .direct "uploads/555-666.txt" "orig.txt" := by
  decide

/-- C4 counterexample: at `bytes = 10 * 1024 ^ 4` (which is at least
`1024 ^ 4`) the unit index is 4, one past the end of the 4-entry table,
and `formatFileSize` answers `"10 undefined"` — a string that does not
end in `"GB"`: the code contains no clamping of the index. -/
theorem formatFileSize_no_gb_clamp_counterexample :
    formatFileSize 10995116277760 = "10 undefined" ∧
    formatFileSize 10995116277760 ≠ "10 GB" := by
  have hlog : Nat.log 1024 10995116277760 = 4 :=
    Nat.log_eq_of_pow_le_of_lt_pow (by norm_num) (by norm_num)
  constructor
  · simp only [formatFileSize, hlog]
    decide
  · simp only [formatFileSize, hlog]
    decide

/-- C4 (amended): for every `bytes ≥ 1024 ^ 4` the unit index
`⌊log_1024 bytes⌋` is at least 4, past the end of the fixed 4-entry
table; the JavaScript array lookup therefore yields `undefined`, and the
returned string carries the suffix `"undefined"` instead of a clamped
GB unit. -/
theorem formatFileSize_huge_renders_undefined (bytes : Nat)
    (h : 1024 ^ 4 ≤ bytes) :
    4 ≤ Nat.log 1024 bytes ∧
    formatFileSize bytes =
      renderMagnitude bytes (Nat.log 1024 bytes) ++ " " ++ "undefined" := by
  have hb : bytes ≠ 0 := by
    have h0 : 0 < bytes := lt_of_lt_of_le (by norm_num) h
    exact h0.ne'
  have hlog : 4 ≤ Nat.log 1024 bytes :=
    (Nat.pow_le_iff_le_log (by norm_num) hb).mp h
  have hlen : sizes.length ≤ Nat.log 1024 bytes := by
    simpa [sizes] using hlog
  refine ⟨hlog, ?_⟩
  have hget : sizes.getD (Nat.log 1024 bytes) "undefined" = "undefined" :=
    List.getD_eq_default _ _ hlen
  unfold formatFileSize
  rw [if_neg hb, hget]

/-- Witness for the amended C4 theorem at `bytes = 10 * 1024 ^ 4`. -/
theorem formatFileSize_huge_renders_undefined_witness :
    1024 ^ 4 ≤ 10995116277760 ∧
    (4 ≤ Nat.log 1024 10995116277760 ∧
     formatFileSize 10995116277760 =
       renderMagnitude 10995116277760 (Nat.log 1024 10995116277760) ++
         " " ++ "undefined") :=
  ⟨by norm_num, formatFileSize_huge_renders_undefined 10995116277760 (by norm_num)⟩

/-- C5: the sweep (modelled from the spec, see `sweepExpired`) removes
exactly the records with `expiresAt < now`: an entry survives iff it was
in the registry and is not expired; survivors keep their relative order
(the result is a sublist); the removed count plus the survivor count is
the original size; and an immediate second sweep removes 0 records and
returns the registry unchanged. -/
theorem sweepExpired_exact_and_idempotent (store : Store) (now : Int) :
    (∀ e : String × TransferRecord,
        e ∈ (sweepExpired store now).2 ↔
          e ∈ store ∧ ¬ e.2.expiresAt < now) ∧
    (sweepExpired store now).2.Sublist store ∧
    (sweepExpired store now).1 + (sweepExpired store now).2.length =
      store.length ∧
    sweepExpired (sweepExpired store now).2 now =
      (0, (sweepExpired store now).2) := by
  refine ⟨?_, ?_, ?_, ?_⟩
  · intro e
    simp [sweepExpired, List.mem_filter]
  · exact List.filter_sublist _
  · exact length_filter_add_length_filter_not store _
  · have h1 : ((store.filter (fun e => ! decide (e.2.expiresAt < now))).filter
        (fun e => decide (e.2.expiresAt < now))) = [] := by
      simp [List.filter_filter]
    have h2 : ((store.filter (fun e => ! decide (e.2.expiresAt < now))).filter
        (fun e => ! decide (e.2.expiresAt < now))) =
        store.filter (fun e => ! decide (e.2.expiresAt < now)) := by
      simp [List.filter_filter]
    simp [sweepExpired, h1, h2]

end FileTransfer
